import Mathlib

/-!
Verification of the NSE calendar / expiry / symbol-parsing / timestamp core of
the marvelquant_data repository.

Dates are embedded as proleptic-Gregorian ordinal day numbers (day 1 =
0001-01-01, exactly Python's `date.toordinal()`), so `datetime.timedelta`
arithmetic becomes Nat arithmetic and `date.weekday()` becomes a mod-7
computation.  Holiday dates from `nse_calendar.py` are embedded as the ordinal
numbers of the same (year, month, day) literals.
-/

set_option maxRecDepth 100000

namespace Marvelquant

/-- Gregorian leap-year rule, as used by Python's `datetime.date` and
`calendar.monthrange`. -/
def isLeap (y : Nat) : Bool :=
  (y % 4 == 0 && y % 100 != 0) || (y % 400 == 0)

/-- Length of month `m` of year `y` (Python `calendar.monthrange(y, m)[1]`). -/
def monthLength (y m : Nat) : Nat :=
  if m = 2 then (if isLeap y then 29 else 28)
  else if m = 4 ∨ m = 6 ∨ m = 9 ∨ m = 11 then 30
  else 31

/-- Days in year `y` strictly before the first day of month `m`. -/
def daysBeforeMonth (y : Nat) : Nat → Nat
  | 0 => 0
  | 1 => 0
  | k + 1 => daysBeforeMonth y k + monthLength y k

/-- Proleptic-Gregorian ordinal day number of the date `y-m-d`; agrees with
Python's `date(y, m, d).toordinal()` (day 1 = 0001-01-01). -/
def dayNum (y m d : Nat) : Nat :=
  365 * (y - 1) + (y - 1) / 4 + (y - 1) / 400 + daysBeforeMonth y m + d - (y - 1) / 100

/-- Python's `date.weekday()` on ordinal day numbers: Monday = 0 .. Sunday = 6.
Ordinal day 1 (0001-01-01) is a Monday. -/
def weekday (d : Nat) : Nat := (d + 6) % 7

/-- NSE holidays 2018 (`NSEHolidayCalendar.HOLIDAYS_2018`), as ordinals. -/
def HOLIDAYS_2018 : List Nat :=
  [dayNum 2018 1 26, dayNum 2018 3 2, dayNum 2018 3 30, dayNum 2018 4 2,
   dayNum 2018 5 1, dayNum 2018 8 15, dayNum 2018 8 22, dayNum 2018 9 13,
   dayNum 2018 10 2, dayNum 2018 10 18, dayNum 2018 11 7, dayNum 2018 11 8,
   dayNum 2018 11 23, dayNum 2018 12 25]

/-- NSE holidays 2019 (`NSEHolidayCalendar.HOLIDAYS_2019`), as ordinals. -/
def HOLIDAYS_2019 : List Nat :=
  [dayNum 2019 1 26, dayNum 2019 3 4, dayNum 2019 3 21, dayNum 2019 4 17,
   dayNum 2019 4 19, dayNum 2019 5 1, dayNum 2019 6 5, dayNum 2019 8 12,
   dayNum 2019 8 15, dayNum 2019 9 2, dayNum 2019 9 10, dayNum 2019 10 2,
   dayNum 2019 10 8, dayNum 2019 10 28, dayNum 2019 11 12, dayNum 2019 12 25]

/-- NSE holidays 2020 (`NSEHolidayCalendar.HOLIDAYS_2020`), as ordinals. -/
def HOLIDAYS_2020 : List Nat :=
  [dayNum 2020 1 26, dayNum 2020 2 21, dayNum 2020 3 10, dayNum 2020 4 2,
   dayNum 2020 4 6, dayNum 2020 4 10, dayNum 2020 5 1, dayNum 2020 5 25,
   dayNum 2020 8 1, dayNum 2020 8 15, dayNum 2020 10 2, dayNum 2020 10 25,
   dayNum 2020 11 14, dayNum 2020 11 16, dayNum 2020 11 30, dayNum 2020 12 25]

/-- NSE holidays 2021 (`NSEHolidayCalendar.HOLIDAYS_2021`), as ordinals. -/
def HOLIDAYS_2021 : List Nat :=
  [dayNum 2021 1 26, dayNum 2021 3 11, dayNum 2021 3 29, dayNum 2021 4 2,
   dayNum 2021 4 21, dayNum 2021 5 13, dayNum 2021 7 21, dayNum 2021 8 19,
   dayNum 2021 9 10, dayNum 2021 10 15, dayNum 2021 11 4, dayNum 2021 11 5,
   dayNum 2021 11 19]

/-- NSE holidays 2022 (`NSEHolidayCalendar.HOLIDAYS_2022`), as ordinals. -/
def HOLIDAYS_2022 : List Nat :=
  [dayNum 2022 1 26, dayNum 2022 3 1, dayNum 2022 3 18, dayNum 2022 4 14,
   dayNum 2022 4 15, dayNum 2022 5 3, dayNum 2022 7 10, dayNum 2022 8 9,
   dayNum 2022 8 15, dayNum 2022 8 31, dayNum 2022 10 5, dayNum 2022 10 24,
   dayNum 2022 10 26, dayNum 2022 11 8]

/-- NSE holidays 2023 (`NSEHolidayCalendar.HOLIDAYS_2023`), as ordinals. -/
def HOLIDAYS_2023 : List Nat :=
  [dayNum 2023 1 26, dayNum 2023 3 7, dayNum 2023 3 30, dayNum 2023 4 4,
   dayNum 2023 4 7, dayNum 2023 4 14, dayNum 2023 4 22, dayNum 2023 5 1,
   dayNum 2023 6 29, dayNum 2023 8 15, dayNum 2023 9 19, dayNum 2023 10 2,
   dayNum 2023 10 24, dayNum 2023 11 12, dayNum 2023 11 13, dayNum 2023 11 27,
   dayNum 2023 12 25]

/-- NSE holidays 2024 (`NSEHolidayCalendar.HOLIDAYS_2024`), as ordinals. -/
def HOLIDAYS_2024 : List Nat :=
  [dayNum 2024 1 26, dayNum 2024 3 8, dayNum 2024 3 25, dayNum 2024 3 29,
   dayNum 2024 4 11, dayNum 2024 4 17, dayNum 2024 5 1, dayNum 2024 6 17,
   dayNum 2024 7 17, dayNum 2024 8 15, dayNum 2024 10 2, dayNum 2024 11 1,
   dayNum 2024 11 15, dayNum 2024 12 25]

/-- Combined holiday set `NSEHolidayCalendar.HOLIDAYS` (the year sets are
pairwise disjoint, so the Python set union has the same membership as this
list concatenation). -/
def HOLIDAYS : List Nat :=
  HOLIDAYS_2018 ++ HOLIDAYS_2019 ++ HOLIDAYS_2020 ++ HOLIDAYS_2021 ++
  HOLIDAYS_2022 ++ HOLIDAYS_2023 ++ HOLIDAYS_2024

/-- `NSEHolidayCalendar.WEEKEND_DAYS` (Saturday = 5, Sunday = 6). -/
def WEEKEND_DAYS : List Nat := [5, 6]

/-- `NSEHolidayCalendar.is_trading_day`: not a weekend and not a declared
holiday. -/
def is_trading_day (d : Nat) : Bool :=
  !(WEEKEND_DAYS.contains (weekday d)) && !(HOLIDAYS.contains d)

/-- Iteration core of `NSEHolidayCalendar.trading_days_between`: the Python
`while current < end` loop runs exactly `end - start` times, once per day of
the half-open interval `[start, end)`. -/
def tdbGo (c : Nat) : Nat → Nat
  | 0 => 0
  | n + 1 => (if is_trading_day c then 1 else 0) + tdbGo (c + 1) n

/-- `NSEHolidayCalendar.trading_days_between start end`: count of trading days
in `[start, end)`; when `start ≥ end` the loop body never runs and the count
is 0. -/
def trading_days_between (s e : Nat) : Nat := tdbGo s (e - s)

/-- The holiday walk-back loop of `get_nse_monthly_expiry`
(`while not calendar.is_trading_day(last_thursday): last_thursday -= 1 day`).
The `0` case guards the ordinal going below Python's `date.min`; it is never
reached from any real month (proved below). -/
def walkBackToTradingDay : Nat → Nat
  | 0 => 0
  | d + 1 => if is_trading_day (d + 1) then d + 1 else walkBackToTradingDay d

/-- `get_nse_monthly_expiry year month`: last Thursday of the month
(`last_day - (last_day.weekday() - 3) % 7` days; `+ 7 - 3` is the
Python nonnegative `- 3 mod 7` on a weekday in `0..6`), then walked back to a
trading day. -/
def get_nse_monthly_expiry (y m : Nat) : Nat :=
  let lastDay := dayNum y m (monthLength y m)
  let daysSinceThursday := (weekday lastDay + 7 - 3) % 7
  walkBackToTradingDay (lastDay - daysSinceThursday)

/-- Iteration core of `NSEHolidayCalendar.get_next_trading_day`: forward walk
with a fuel bound.  The source loop is unbounded; lemma
`exists_trading_day_within_9` below shows a trading day always occurs within
9 days, so fuel 9 makes this extensionally equal to the source loop. -/
def nextGo : Nat → Nat → Nat
  | c, 0 => c
  | c, n + 1 => if is_trading_day c then c else nextGo (c + 1) n

/-- `NSEHolidayCalendar.get_next_trading_day`: first trading day strictly
after `d`. -/
def get_next_trading_day (d : Nat) : Nat := nextGo (d + 1) 9

/-- `classify_expiry_bucket option_expiry current_date` from
`expiry_calculator.py`: DTE in trading days, then the fixed band thresholds. -/
def classify_expiry_bucket (optionExpiry currentDate : Nat) : String :=
  let dte := trading_days_between currentDate optionExpiry
  if dte ≤ 7 then ("CW")
  else if dte ≤ 14 then ("NW")
  else if dte ≤ 30 then ("CM")
  else ("NM")

/-- Modelled from the spec: the band table of section 8 / `classifyExpiryBucket`
("dte ≤ 7 → CurrentWeek, 8–14 → NextWeek, 15–30 → CurrentMonth, >30 →
NextMonth; boundary values inclusive on the lower side of each band"),
written from the spec's words for comparison with the code's
`classify_expiry_bucket`. -/
def specBucket (dte : Nat) : String :=
  if 31 ≤ dte then ("NM")
  else if 15 ≤ dte then ("CM")
  else if 8 ≤ dte then ("NW")
  else ("CW")

/-! Timestamp conversion (`timestamp_conversion.py`).

`yyyymmdd_seconds_to_utc_ns` builds a naive `datetime`, subtracts the fixed
5:30 IST offset and calls `.timestamp()`; with the UTC environment the
module's doctests assume, that is exact integer epoch arithmetic, and
`int(timestamp_seconds * 1e9)` is exact because whole-second epoch values in
the decades around the Unix epoch stay within the float-exact regime
(`|seconds| < 2^31` gives a product that is an exactly representable double).
Inputs on which the `datetime` constructor raises (`ValueError` /
`OverflowError`) are modelled as `none`. -/

/-- `date(y, m, d).toordinal()` of the Unix epoch 1970-01-01 (= 719163). -/
def EPOCH_ORD : Nat := dayNum 1970 1 1

/-- `yyyymmdd_seconds_to_utc_ns date_int seconds_int`: decompose the integers,
build the naive IST instant, subtract the 5:30 offset (19800 seconds) and
scale to nanoseconds.  `none` models the `datetime(...)` constructor raising
on out-of-range components (year outside 1..9999, bad month/day, hour > 23). -/
def yyyymmdd_seconds_to_utc_ns (dateInt secondsInt : Nat) : Option Int :=
  let year := dateInt / 10000
  let month := dateInt % 10000 / 100
  let day := dateInt % 100
  let hours := secondsInt / 3600
  let minutes := secondsInt % 3600 / 60
  let seconds := secondsInt % 60
  if 1 ≤ year ∧ year ≤ 9999 ∧ 1 ≤ month ∧ month ≤ 12 ∧
      1 ≤ day ∧ day ≤ monthLength year month ∧ hours ≤ 23 then
    some ((((dayNum year month day : Int) - (EPOCH_ORD : Int)) * 86400 +
      ((hours : Int) * 3600 + (minutes : Int) * 60 + (seconds : Int)) - 19800) *
      1000000000)
  else none

/-- `MIN_TIMESTAMP` from `validate_timestamp_conversion`
(2018-01-01 00:00:00 UTC in nanoseconds). -/
def MIN_TIMESTAMP : Int := 1514764800000000000

/-- `MAX_TIMESTAMP` from `validate_timestamp_conversion`
(2026-01-01 00:00:00 UTC in nanoseconds). -/
def MAX_TIMESTAMP : Int := 1767225600000000000

/-- Fuel-bounded decimal digit count; `decLen` below supplies fuel `n`, which
always suffices (one recursion step per digit). -/
def decLenAux : Nat → Nat → Nat
  | 0, _ => 1
  | f + 1, n => if n < 10 then 1 else decLenAux f (n / 10) + 1

/-- Number of decimal digits of `n` (= `len(str(n))` for a nonnegative Python
int). -/
def decLen (n : Nat) : Nat := decLenAux n n

/-- Python `len(str(v))` for an int `v`: a negative value adds one character
for the sign. -/
def pyIntStrLen (v : Int) : Nat :=
  if v < 0 then decLen v.natAbs + 1 else decLen v.toNat

/-- `validate_timestamp_conversion` on a single (non-empty) row
`(trade_date, trade_time, ts_event)`: recompute the expected timestamp and
compare, then the 2018–2026 range assertion, then the 19-decimal-digit
assertion.  `none` models an `AssertionError` being raised (or the
recomputation itself raising); `some true` is the `return True` path. -/
def validate_timestamp_conversion (dateV timeV : Nat) (ts : Int) : Option Bool :=
  match yyyymmdd_seconds_to_utc_ns dateV timeV with
  | none => none
  | some expected =>
    if ts ≠ expected then none
    else if ¬(MIN_TIMESTAMP ≤ ts ∧ ts ≤ MAX_TIMESTAMP) then none
    else if pyIntStrLen ts ≠ 19 then none
    else some true

/-! Symbol parsing (`contract_generators.parse_nse_option_symbol`).

Python string slicing with negative indices is replicated on `List Char`
(`s[-k:]` = `drop (n - k)`, `s[:-k]` = `take (n - k)`, with Nat subtraction
giving exactly Python's clamping at 0).  `float()` on the strike block is
modelled on the digit-string regime these 5-character blocks live in:
a nonempty all-digit string parses to its value, anything else raises.
`datetime.strptime(s, DDMMMYY)` is modelled with the exact regex
alternation order CPython's `_strptime` uses (`%d` = 2-digit day patterns
before a single digit `1..9`, `%b` = case-insensitive 3-letter month
abbreviation, `%y` = two digits before one), the unconverted-data check,
the `%y` century rule (≤ 68 → 2000s else 1900s) and date validation. -/

/-- A parsed calendar date (`datetime.date` value). -/
structure PDate where
  year : Nat
  month : Nat
  day : Nat
deriving DecidableEq

/-- Result record of `parse_nse_option_symbol`. The strike is the numeric
value of the all-digit strike block (the Python `float` is integral there). -/
structure ParsedOption where
  underlying : String
  expiry : PDate
  strike : Nat
  option_type : String
deriving DecidableEq

/-- Numeric value of a digit string. -/
def digitsVal (cs : List Char) : Nat :=
  cs.foldl (fun a c => a * 10 + (c.toNat - 48)) 0

/-- Python `float(s)` restricted to the strike-block regime: a nonempty
all-digit string yields its (integral) value, anything else raises
`ValueError` (`none`). -/
def pyFloatDigits (cs : List Char) : Option Nat :=
  if cs ≠ [] ∧ cs.all Char.isDigit then some (digitsVal cs) else none

/-- C-locale month abbreviations matched case-insensitively by `%b`. -/
def monthOfAbbrev (cs : List Char) : Option Nat :=
  match cs.map Char.toUpper with
  | ['J', 'A', 'N'] => some 1
  | ['F', 'E', 'B'] => some 2
  | ['M', 'A', 'R'] => some 3
  | ['A', 'P', 'R'] => some 4
  | ['M', 'A', 'Y'] => some 5
  | ['J', 'U', 'N'] => some 6
  | ['J', 'U', 'L'] => some 7
  | ['A', 'U', 'G'] => some 8
  | ['S', 'E', 'P'] => some 9
  | ['O', 'C', 'T'] => some 10
  | ['N', 'O', 'V'] => some 11
  | ['D', 'E', 'C'] => some 12
  | _ => none

/-- The `%d` two-character alternatives `3[01] | [12]\d | 0[1-9]`. -/
def twoDigitDayOk (a b : Char) : Bool :=
  (a == '3' && (b == '0' || b == '1')) ||
  ((a == '1' || a == '2') && b.isDigit) ||
  (a == '0' && b.isDigit && b != '0')

/-- One regex candidate of the `%d%b%y` pattern: day of `dl` characters
(`dl ∈ {1, 2}`), 3-character month, year of `yl` characters (`yl ∈ {1, 2}`).
Returns the components and the match end position. -/
def strpCandidate (cs : List Char) (dl yl : Nat) : Option (Nat × Nat × Nat × Nat) :=
  let dcs := cs.take dl
  let mcs := (cs.drop dl).take 3
  let ycs := (cs.drop (dl + 3)).take yl
  if dcs.length = dl ∧ mcs.length = 3 ∧ ycs.length = yl ∧ ycs.all Char.isDigit then
    let dayOk :=
      match dl, dcs with
      | 2, [a, b] => twoDigitDayOk a b
      | 1, [a] => a.isDigit && a != '0'
      | _, _ => false
    if dayOk then
      match monthOfAbbrev mcs with
      | some mon => some (digitsVal dcs, mon, digitsVal ycs, dl + 3 + yl)
      | none => none
    else none
  else none

/-- `datetime.strptime(s, DDMMMYY).date()`: regex candidates in CPython's
backtracking order (2-digit day before 1-digit, 2-digit year before 1-digit),
then the unconverted-data check (match must end exactly at the end of the
string), the `%y` century rule and `date` validation. -/
def strptimeDDMMMYY (cs : List Char) : Option PDate :=
  let m := (strpCandidate cs 2 2).orElse (fun _ => (strpCandidate cs 2 1).orElse
    (fun _ => (strpCandidate cs 1 2).orElse (fun _ => strpCandidate cs 1 1)))
  match m with
  | none => none
  | some (day, mon, y2, stop) =>
    if stop = cs.length then
      let year := if y2 ≤ 68 then 2000 + y2 else 1900 + y2
      if 1 ≤ day ∧ day ≤ monthLength year mon then some ⟨year, mon, day⟩
      else none
    else none

/-- `parse_nse_option_symbol symbol`: fixed-position decode from the right.
The last 2 characters select the option kind (`CE` → CALL, anything else →
PUT — the code has no `PE` check), the previous 5 the strike, the previous 7
the `DDMMMYY` expiry, the rest the underlying.  `none` models the `float` or
`strptime` call raising. -/
def parse_nse_option_symbol (s : String) : Option ParsedOption :=
  let cs := s.data
  let n := cs.length
  let optionTypeCode := cs.drop (n - 2)
  let optionType := if optionTypeCode = ['C', 'E'] then ("CALL") else ("PUT")
  let swt := cs.take (n - 2)
  let m := swt.length
  match pyFloatDigits (swt.drop (m - 5)) with
  | none => none
  | some strike =>
    match strptimeDDMMMYY ((swt.take (m - 5)).drop (m - 12)) with
    | none => none
    | some expiry =>
      some ⟨⟨swt.take (m - 12)⟩, expiry, strike, optionType⟩

/-! Helper lemmas. -/

/-- Unfolding of `is_trading_day` into propositional form. -/
theorem is_trading_day_iff (d : Nat) :
    is_trading_day d = true ↔ weekday d ≠ 5 ∧ weekday d ≠ 6 ∧ d ∉ HOLIDAYS := by
  simp [is_trading_day, WEEKEND_DAYS, and_assoc]

/-- The reference holiday table has no three consecutive holiday dates
(Diwali-style pairs occur, triples do not). -/
theorem holidays_no_three_consecutive :
    ∀ h ∈ HOLIDAYS, ¬((h + 1) ∈ HOLIDAYS ∧ (h + 2) ∈ HOLIDAYS) := by decide

/-- Months 1..12 have at least 28 days. -/
theorem monthLength_ge (y m : Nat) (h1 : 1 ≤ m) (h2 : m ≤ 12) :
    28 ≤ monthLength y m := by
  unfold monthLength
  interval_cases m <;> simp <;> split_ifs <;> omega

/-- The two divisor terms of `dayNum` compare as needed for its Nat
subtraction. -/
theorem dayNum_div_le (y : Nat) : (y - 1) / 100 ≤ (y - 1) / 4 :=
  Nat.div_le_div_left (by norm_num) (by norm_num)

/-! Claims C3, C9, C10: bucket classification and reversed intervals. -/

/-- C3: for every expiry date and as-of date, `classify_expiry_bucket` maps
the trading-day distance `dte = trading_days_between asOfDate expiry` to the
spec's lower-inclusive bands: `dte ≤ 7` gives CW, `8 ≤ dte ≤ 14` gives NW,
`15 ≤ dte ≤ 30` gives CM, `dte ≥ 31` gives NM — in particular 7 → CW,
8 → NW, 14 → NW, 15 → CM, 30 → CM, 31 → NM. -/
theorem claim_C3 (e c : Nat) :
    classify_expiry_bucket e c = specBucket (trading_days_between c e) := by
  unfold classify_expiry_bucket specBucket
  dsimp only
  split_ifs <;> first | rfl | omega

/-- C9: for every pair of dates with `start > end`,
`trading_days_between start end` silently returns 0 — no error, no negative
result, indistinguishable from an empty interval. -/
theorem claim_C9 (s e : Nat) (h : e < s) : trading_days_between s e = 0 := by
  unfold trading_days_between
  have he : e - s = 0 := by omega
  rw [he]
  rfl

/-- Witness for C9 at a reversed concrete interval (2024-01-25 back to
2024-01-15). -/
theorem claim_C9_witness :
    trading_days_between (dayNum 2024 1 25) (dayNum 2024 1 15) = 0 :=
  claim_C9 (dayNum 2024 1 25) (dayNum 2024 1 15) (by decide)

/-- C10: every expiry on or before the as-of date gets trading-day distance 0
and is classified CW — already-expired contracts land in the CurrentWeek
bucket rather than being rejected or marked expired. -/
theorem claim_C10 (e c : Nat) (h : e ≤ c) :
    trading_days_between c e = 0 ∧ classify_expiry_bucket e c = ("CW") := by
  have h0 : trading_days_between c e = 0 := by
    unfold trading_days_between
    have he : e - c = 0 := by omega
    rw [he]
    rfl
  refine ⟨h0, ?_⟩
  unfold classify_expiry_bucket
  rw [h0]
  rfl

/-- Witness for C10: an expiry (2024-01-25) strictly before the as-of date
(2024-02-01). -/
theorem claim_C10_witness :
    trading_days_between (dayNum 2024 2 1) (dayNum 2024 1 25) = 0 ∧
    classify_expiry_bucket (dayNum 2024 1 25) (dayNum 2024 2 1) = ("CW") :=
  claim_C10 (dayNum 2024 1 25) (dayNum 2024 2 1) (by decide)

/-! Claim C7: the trading-day predicate. -/

/-- C7: for every date, `is_trading_day` is true iff the weekday is neither
Saturday (5) nor Sunday (6) and the date is not in the static holiday set;
the check is a pure total function. -/
theorem claim_C7 (d : Nat) :
    is_trading_day d = true ↔ weekday d ≠ 5 ∧ weekday d ≠ 6 ∧ d ∉ HOLIDAYS :=
  is_trading_day_iff d

/-! Claim C6: the two concrete monthly expiries. -/

/-- C6: with the reference holiday table, the January 2024 monthly expiry is
2024-01-25 and the October 2024 monthly expiry is 2024-10-31. -/
theorem claim_C6 :
    get_nse_monthly_expiry 2024 1 = dayNum 2024 1 25 ∧
    get_nse_monthly_expiry 2024 10 = dayNum 2024 10 31 := by decide

/-! Claim C5: concrete timestamp conversions. -/

/-- C5 counterexample: the spec's expected numbers are not what the code
computes — 09:15 IST on 2024-01-02 is 03:45 UTC, i.e. 1704167100000000000 ns,
not 1704176700000000000 ns. -/
theorem claim_C5_counterexample :
    ¬(yyyymmdd_seconds_to_utc_ns 20240102 33300 = some 1704176700000000000 ∧
      yyyymmdd_seconds_to_utc_ns 20240102 34500 = some 1704177900000000000) := by
  decide

/-- C5 amended: the conversion decomposes the YYYYMMDD and seconds integers,
subtracts the fixed 5:30 IST offset and yields exact whole-second UTC
nanoseconds: 33300 s (09:15 IST) on 2024-01-02 maps to 1704167100000000000
and 34500 s (09:35 IST) to 1704168300000000000. -/
theorem claim_C5 :
    yyyymmdd_seconds_to_utc_ns 20240102 33300 = some 1704167100000000000 ∧
    yyyymmdd_seconds_to_utc_ns 20240102 34500 = some 1704168300000000000 := by
  decide

/-! Claim C2: the monthly expiry is a trading day inside its month. -/

/-- Unfolding equation for the walk-back loop at a positive ordinal. -/
theorem walkBack_succ (d : Nat) :
    walkBackToTradingDay (d + 1) =
      if is_trading_day (d + 1) then d + 1 else walkBackToTradingDay d := rfl

/-- Walking back from a Thursday stops within two days: a Thursday or the
Wednesday before it that is not a trading day must be a holiday (neither is a
weekend), and the holiday table has no three consecutive dates, so the
Tuesday before is always a trading day. -/
theorem walkBack_thursday (d : Nat) (h2 : 2 ≤ d) (hw : weekday d = 3) :
    is_trading_day (walkBackToTradingDay d) = true ∧
    d - 2 ≤ walkBackToTradingDay d ∧ walkBackToTradingDay d ≤ d := by
  obtain ⟨a, rfl⟩ : ∃ a, d = a + 2 := ⟨d - 2, by omega⟩
  by_cases t2 : is_trading_day (a + 2) = true
  · rw [show a + 2 = (a + 1) + 1 from rfl, walkBack_succ, if_pos t2]
    exact ⟨t2, by omega, by omega⟩
  · have hH2 : (a + 2) ∈ HOLIDAYS := by
      by_contra hc
      exact t2 ((is_trading_day_iff (a + 2)).mpr ⟨by omega, by omega, hc⟩)
    rw [show a + 2 = (a + 1) + 1 from rfl, walkBack_succ, if_neg t2]
    have hw1 : weekday (a + 1) = 2 := by unfold weekday at hw ⊢; omega
    by_cases t1 : is_trading_day (a + 1) = true
    · rw [walkBack_succ, if_pos t1]
      exact ⟨t1, by omega, by omega⟩
    · have hH1 : (a + 1) ∈ HOLIDAYS := by
        by_contra hc
        exact t1 ((is_trading_day_iff (a + 1)).mpr ⟨by omega, by omega, hc⟩)
      have hw0 : weekday a = 1 := by unfold weekday at hw ⊢; omega
      have hH0 : a ∉ HOLIDAYS := fun hc =>
        holidays_no_three_consecutive a hc ⟨hH1, hH2⟩
      have t0 : is_trading_day a = true :=
        (is_trading_day_iff a).mpr ⟨by omega, by omega, hH0⟩
      obtain ⟨b, rfl⟩ : ∃ b, a = b + 1 := by
        cases a with
        | zero => exact absurd hw0 (by unfold weekday; try omega)
        | succ b => exact ⟨b, rfl⟩
      rw [walkBack_succ, if_neg t1, walkBack_succ, if_pos t0]
      exact ⟨t0, by omega, by omega⟩

/-- Unfolding of `get_nse_monthly_expiry` with the lets reduced. -/
theorem get_nse_monthly_expiry_eq (y m : Nat) :
    get_nse_monthly_expiry y m =
      walkBackToTradingDay (dayNum y m (monthLength y m) -
        (weekday (dayNum y m (monthLength y m)) + 7 - 3) % 7) := rfl

/-- The ordinal of day `d` of a month is the ordinal of its first day plus
`d - 1`. -/
theorem dayNum_day_shift (y m d : Nat) (hd : 1 ≤ d) :
    dayNum y m d = dayNum y m 1 + (d - 1) := by
  have := dayNum_div_le y
  unfold dayNum
  omega

/-- The first day of any month has a positive ordinal. -/
theorem dayNum_first_pos (y m : Nat) : 1 ≤ dayNum y m 1 := by
  have := dayNum_div_le y
  unfold dayNum
  omega

/-- C2: for every year and month (with the 2018–2024 reference holiday
table), `get_nse_monthly_expiry` returns a trading day that lies between the
first and the last calendar day of that month — the holiday walk-back from
the last Thursday never crosses into the previous month. -/
theorem claim_C2 (y m : Nat) (hy : 1 ≤ y) (hm1 : 1 ≤ m) (hm2 : m ≤ 12) :
    is_trading_day (get_nse_monthly_expiry y m) = true ∧
    dayNum y m 1 ≤ get_nse_monthly_expiry y m ∧
    get_nse_monthly_expiry y m ≤ dayNum y m (monthLength y m) := by
  have hml : 28 ≤ monthLength y m := monthLength_ge y m hm1 hm2
  have hshift : dayNum y m (monthLength y m) = dayNum y m 1 + (monthLength y m - 1) :=
    dayNum_day_shift y m (monthLength y m) (by omega)
  have hpos := dayNum_first_pos y m
  rw [get_nse_monthly_expiry_eq]
  set L := dayNum y m (monthLength y m) with hL
  have hwL : weekday L < 7 := Nat.mod_lt _ (by norm_num)
  set r := (weekday L + 7 - 3) % 7 with hr
  have hr7 : r < 7 := Nat.mod_lt _ (by norm_num)
  have hth : weekday (L - r) = 3 := by
    have hwdef : weekday L = (L + 6) % 7 := rfl
    unfold weekday
    omega
  have hwalk := walkBack_thursday (L - r) (by omega) hth
  exact ⟨hwalk.1, by omega, by omega⟩

/-- Witness for C2 at January 2024. -/
theorem claim_C2_witness :
    is_trading_day (get_nse_monthly_expiry 2024 1) = true ∧
    dayNum 2024 1 1 ≤ get_nse_monthly_expiry 2024 1 ∧
    get_nse_monthly_expiry 2024 1 ≤ dayNum 2024 1 (monthLength 2024 1) :=
  claim_C2 2024 1 (by decide) (by decide) (by decide)

/-! Claim C8: the forward walk to the next trading day. -/

/-- The fuel-bounded forward walk reaches a trading day whenever one exists
within the fuel, and stops at or before the first one. -/
theorem nextGo_spec :
    ∀ (n c r : Nat), c ≤ r → r ≤ c + n → is_trading_day r = true →
      is_trading_day (nextGo c n) = true ∧ c ≤ nextGo c n ∧ nextGo c n ≤ r := by
  intro n
  induction n with
  | zero =>
    intro c r h1 h2 h3
    have : r = c := by omega
    subst this
    exact ⟨h3, Nat.le_refl _, Nat.le_refl _⟩
  | succ n ih =>
    intro c r h1 h2 h3
    have e : nextGo c (n + 1) = if is_trading_day c then c else nextGo (c + 1) n := rfl
    by_cases hc : is_trading_day c = true
    · rw [e, if_pos hc]
      exact ⟨hc, Nat.le_refl _, h1⟩
    · have hcr : c ≠ r := fun h => hc (h ▸ h3)
      have hrec := ih (c + 1) r (by omega) (by omega) h3
      rw [e, if_neg hc]
      exact ⟨hrec.1, by omega, hrec.2.2⟩

/-- Any 9-day window past a date contains a Monday–Wednesday block; none of
those weekdays is a weekend and the holiday table has no three consecutive
dates, so a trading day occurs within 9 days after any date. -/
theorem exists_trading_day_within_9 (d : Nat) :
    ∃ r, d + 1 ≤ r ∧ r ≤ d + 9 ∧ is_trading_day r = true := by
  have hw7 : weekday (d + 1) < 7 := Nat.mod_lt _ (by norm_num)
  set o := (7 - weekday (d + 1)) % 7 with ho
  have ho7 : o < 7 := Nat.mod_lt _ (by norm_num)
  set m0 := d + 1 + o with hm0
  have hwm0 : weekday m0 = 0 := by
    have hwdef : weekday (d + 1) = (d + 1 + 6) % 7 := rfl
    unfold weekday
    omega
  have hwm1 : weekday (m0 + 1) = 1 := by unfold weekday at hwm0 ⊢; omega
  have hwm2 : weekday (m0 + 2) = 2 := by unfold weekday at hwm0 ⊢; omega
  by_cases t0 : is_trading_day m0 = true
  · exact ⟨m0, by omega, by omega, t0⟩
  have hH0 : m0 ∈ HOLIDAYS := by
    by_contra hc
    exact t0 ((is_trading_day_iff m0).mpr ⟨by omega, by omega, hc⟩)
  by_cases t1 : is_trading_day (m0 + 1) = true
  · exact ⟨m0 + 1, by omega, by omega, t1⟩
  have hH1 : (m0 + 1) ∈ HOLIDAYS := by
    by_contra hc
    exact t1 ((is_trading_day_iff (m0 + 1)).mpr ⟨by omega, by omega, hc⟩)
  have hH2 : (m0 + 2) ∉ HOLIDAYS := fun hc =>
    holidays_no_three_consecutive m0 hH0 ⟨hH1, hc⟩
  exact ⟨m0 + 2, by omega, by omega,
    (is_trading_day_iff (m0 + 2)).mpr ⟨by omega, by omega, hH2⟩⟩

/-- C8: for every date, `get_next_trading_day` terminates (the forward walk
always reaches a trading day, within 9 days), and its result is strictly
greater than the input and is a trading day. -/
theorem claim_C8 (d : Nat) :
    d < get_next_trading_day d ∧
    is_trading_day (get_next_trading_day d) = true := by
  obtain ⟨r, h1, h2, h3⟩ := exists_trading_day_within_9 d
  have hspec := nextGo_spec 9 (d + 1) r h1 (by omega) h3
  unfold get_next_trading_day
  exact ⟨by omega, hspec.1⟩

/-! Claim C4: round-trip validation of self-computed timestamps. -/

/-- The fuel-bounded digit counter is exact whenever the fuel covers the
digit count. -/
theorem decLenAux_eq :
    ∀ (k f n : Nat), 10 ^ k ≤ n → n < 10 ^ (k + 1) → k + 1 ≤ f →
      decLenAux f n = k + 1 := by
  intro k
  induction k with
  | zero =>
    intro f n h1 h2 hf
    obtain ⟨f', rfl⟩ : ∃ f', f = f' + 1 := ⟨f - 1, by omega⟩
    simp only [decLenAux]
    rw [if_pos (by simpa using h2)]
  | succ k ih =>
    intro f n h1 h2 hf
    obtain ⟨f', rfl⟩ : ∃ f', f = f' + 1 := ⟨f - 1, by omega⟩
    simp only [decLenAux]
    have h10 : ¬(n < 10) := by
      have : (10 : Nat) ≤ 10 ^ (k + 1) := Nat.le_self_pow (by omega) 10
      omega
    rw [if_neg h10]
    have hlo : 10 ^ k ≤ n / 10 := by
      rw [Nat.le_div_iff_mul_le (by norm_num)]
      calc 10 ^ k * 10 = 10 ^ (k + 1) := by ring
        _ ≤ n := h1
    have hhi : n / 10 < 10 ^ (k + 1) := by
      rw [Nat.div_lt_iff_lt_mul (by norm_num)]
      calc n < 10 ^ (k + 2) := h2
        _ = 10 ^ (k + 1) * 10 := by ring
    rw [ih f' (n / 10) hlo hhi (by omega)]

/-- Decimal digit count of any value in the validator's accepted range is
exactly 19. -/
theorem decLen_range_19 (n : Nat)
    (h1 : 1000000000000000000 ≤ n) (h2 : n < 10000000000000000000) :
    decLen n = 19 := by
  unfold decLen
  have := decLenAux_eq 18 n n (by norm_num; omega) (by norm_num; omega) (by omega)
  omega

/-- C4 counterexample: a calendar-valid input pair (2017-01-02, 09:15 IST)
whose self-computed timestamp fails the validator's 2018–2026 range
assertion — `validate_timestamp_conversion` raises instead of returning
true. -/
theorem claim_C4_counterexample :
    yyyymmdd_seconds_to_utc_ns 20170102 33300 = some 1483328700000000000 ∧
    validate_timestamp_conversion 20170102 33300 1483328700000000000 = none := by
  decide

/-- C4 amended: for every input pair whose computed timestamp lies inside the
validator's sanity range `[MIN_TIMESTAMP, MAX_TIMESTAMP]`, the round-trip
validation of the self-computed timestamp succeeds (returns true, raising
nothing); outside that range the validator's range assertion fires even on a
perfectly consistent round trip. -/
theorem claim_C4 (d t : Nat) (v : Int)
    (hv : yyyymmdd_seconds_to_utc_ns d t = some v)
    (h1 : MIN_TIMESTAMP ≤ v) (h2 : v ≤ MAX_TIMESTAMP) :
    validate_timestamp_conversion d t v = some true := by
  unfold validate_timestamp_conversion
  rw [hv]
  have hMIN : MIN_TIMESTAMP = (1514764800000000000 : Int) := rfl
  have hMAX : MAX_TIMESTAMP = (1767225600000000000 : Int) := rfl
  have hlen : pyIntStrLen v = 19 := by
    unfold pyIntStrLen
    rw [if_neg (by omega)]
    exact decLen_range_19 v.toNat (by omega) (by omega)
  dsimp only
  rw [if_neg (by omega : ¬(v ≠ v)), if_neg (by omega), if_neg (by omega)]

/-- Witness for C4 at the market-open row of 2024-01-02. -/
theorem claim_C4_witness :
    validate_timestamp_conversion 20240102 33300 1704167100000000000 = some true :=
  claim_C4 20240102 33300 1704167100000000000 (by decide) (by decide) (by decide)

/-! Claim C1: failure behaviour of the option-symbol parser. -/

/-- C1 counterexample: an input whose last two characters are neither CE nor
PE is not rejected — `parse_nse_option_symbol` silently defaults the option
kind to PUT and returns a full component record. -/
theorem claim_C1_counterexample :
    parse_nse_option_symbol ("BANKNIFTY28OCT2548000XX") =
      some ⟨("BANKNIFTY"), ⟨2025, 10, 28⟩, 48000, ("PUT")⟩ := by
  decide

/-- C1 amended: the parser fails only when the 5-character strike block is
not numeric or the 7-character date block does not parse; whenever those two
blocks are well-formed it succeeds for every 2-character option-kind suffix
(anything other than CE is silently mapped to PUT, PE included) and for every
underlying prefix, the empty one included — returning the record rather than
a typed failure. -/
theorem claim_C1 (u dd kk xx : String) (pd : PDate) (k : Nat)
    (hdd : dd.length = 7) (hkk : kk.length = 5) (hxx : xx.length = 2)
    (hk : pyFloatDigits kk.data = some k)
    (hdate : strptimeDDMMMYY dd.data = some pd) :
    parse_nse_option_symbol (u ++ dd ++ kk ++ xx) =
      some ⟨u, pd, k, if xx = ("CE") then ("CALL") else ("PUT")⟩ := by
  have hB : dd.data.length = 7 := hdd
  have hC : kk.data.length = 5 := hkk
  have hX : xx.data.length = 2 := hxx
  have hdata : (u ++ dd ++ kk ++ xx).data =
      ((u.data ++ dd.data) ++ kk.data) ++ xx.data := by
    rw [String.data_append, String.data_append, String.data_append]
  unfold parse_nse_option_symbol
  rw [hdata]
  dsimp only
  have h1 : (((u.data ++ dd.data) ++ kk.data) ++ xx.data).drop
      ((((u.data ++ dd.data) ++ kk.data) ++ xx.data).length - 2) = xx.data :=
    List.drop_left' (by simp only [List.length_append, hB, hC, hX]; try omega)
  have h2 : (((u.data ++ dd.data) ++ kk.data) ++ xx.data).take
      ((((u.data ++ dd.data) ++ kk.data) ++ xx.data).length - 2) =
      (u.data ++ dd.data) ++ kk.data :=
    List.take_left' (by simp only [List.length_append, hB, hC, hX]; try omega)
  rw [h1, h2]
  have h3 : ((u.data ++ dd.data) ++ kk.data).drop
      (((u.data ++ dd.data) ++ kk.data).length - 5) = kk.data :=
    List.drop_left' (by simp only [List.length_append, hB, hC]; try omega)
  have h4 : ((u.data ++ dd.data) ++ kk.data).take
      (((u.data ++ dd.data) ++ kk.data).length - 5) = u.data ++ dd.data :=
    List.take_left' (by simp only [List.length_append, hB, hC]; try omega)
  rw [h3, h4, hk]
  have h5 : (u.data ++ dd.data).drop
      (((u.data ++ dd.data) ++ kk.data).length - 12) = dd.data :=
    List.drop_left' (by simp only [List.length_append, hB, hC]; try omega)
  rw [h5, hdate]
  have h6 : ((u.data ++ dd.data) ++ kk.data).take
      (((u.data ++ dd.data) ++ kk.data).length - 12) = u.data := by
    rw [List.append_assoc]
    exact List.take_left' (by simp only [List.length_append, hB, hC]; try omega)
  rw [h6]
  have hcond : (xx.data = ['C', 'E']) = (xx = ("CE")) :=
    propext ⟨fun h => String.ext h, fun h => by rw [h]⟩
  dsimp only
  simp only [hcond]

/-- Witness for C1 at a well-formed PE symbol with a nonempty underlying. -/
theorem claim_C1_witness :
    parse_nse_option_symbol (("NIFTY") ++ ("01FEB24") ++ ("19500") ++ ("PE")) =
      some ⟨("NIFTY"), ⟨2024, 2, 1⟩, 19500, ("PUT")⟩ := by
  have h := claim_C1 ("NIFTY") ("01FEB24") ("19500") ("PE") ⟨2024, 2, 1⟩ 19500
    (by decide) (by decide) (by decide) (by decide) (by decide)
  simpa using h

end Marvelquant
